import Mathlib

/-!
Shallow embedding of the InternVL backend dispatcher (src/dispatcher.py,
src/vlchat.py, src/settings.py): the dispatch loop, api dispatch with its
error classification, the worker that publishes results, the listener
recovery loop, and the thread-pool discipline.  External collaborators
(the PIL image loader, the inference engine, the redis helper functions)
are oracles bundled in an `Env`.
-/

namespace InternVL

/-- Python values as they occur in decoded request payloads: strings,
integers and string-keyed dictionaries (the shapes produced by json.loads
for the messages this program handles). -/
inductive PyVal where
  | str : String → PyVal
  | int : Int → PyVal
  | dict : List (String × PyVal) → PyVal

/-- Python exceptions, classified exactly as far as the except clauses of
dispatcher.py distinguish them: binascii.Error, json.decoder.JSONDecodeError,
and everything else (KeyError, ValueError, TypeError, AttributeError and
arbitrary other exceptions all fall to the catch-all clause). -/
inductive PyErr where
  | binasciiError (msg : String)
  | jsonDecodeError (msg : String)
  | keyError (key : String)
  | valueError (msg : String)
  | typeError (msg : String)
  | attributeError (msg : String)
  | other (msg : String)
deriving DecidableEq

/-- Python str(e) for an exception: KeyError renders the missing key in
quotes, the rest render their message. -/
def pyStr : PyErr → String
  | .binasciiError m => m
  | .jsonDecodeError m => m
  | .keyError k => "\x27" ++ k ++ "\x27"
  | .valueError m => m
  | .typeError m => m
  | .attributeError m => m
  | .other m => m

/-- First-match lookup in a dict's entry list. -/
def pyLookup : List (String × PyVal) → String → Option PyVal
  | [], _ => none
  | (k, v) :: rest, key => if k = key then some v else pyLookup rest key

/-- Python subscription `obj[key]`: KeyError when the key is absent from a
dict, TypeError when the value is not a dict at all. -/
def pyGetItem : PyVal → String → Except PyErr PyVal
  | .dict entries, key =>
      match pyLookup entries key with
      | some v => .ok v
      | none => .error (.keyError key)
  | .str _, _ => .error (.typeError "string indices must be integers")
  | .int _, _ => .error (.typeError "int object is not subscriptable")

/-- Python `obj.get(key, default)`: defined on dicts, AttributeError on
anything else. -/
def pyDictGet : PyVal → String → PyVal → Except PyErr PyVal
  | .dict entries, key, dflt => .ok ((pyLookup entries key).getD dflt)
  | .str _, _, _ => .error (.attributeError "str object has no attribute get")
  | .int _, _, _ => .error (.attributeError "int object has no attribute get")

/-- Python `v == some_string_literal`: true only when v is that string. -/
def pyEqStr : PyVal → String → Bool
  | .str s, t => s = t
  | _, _ => false

/-- The value of a character in the standard base64 alphabet, none for a
character outside it. -/
def b64Val (c : Char) : Option Nat :=
  if 65 ≤ c.toNat ∧ c.toNat ≤ 90 then some (c.toNat - 65)
  else if 97 ≤ c.toNat ∧ c.toNat ≤ 122 then some (c.toNat - 97 + 26)
  else if 48 ≤ c.toNat ∧ c.toNat ≤ 57 then some (c.toNat - 48 + 52)
  else if c = '+' then some 62
  else if c = '/' then some 63
  else none

/-- Decode loop of binascii.a2b_base64 in non-strict mode (what
base64.b64decode uses): characters outside the alphabet are skipped; a
padding character is ignored before two data characters of the current
quad, and terminates the decode once the quad plus accumulated padding
reaches four; at end of input a quad of one data character is the
"cannot be 1 more than a multiple of 4" error and a quad of two or three
is "Incorrect padding".  Arguments: input, quad position, previous
character value, pads seen for the current quad, data characters so far,
output bytes (reversed). -/
def b64Loop : List Char → Nat → Nat → Nat → Nat → List Nat → Except PyErr (List Nat)
  | [], quadPos, _, _, nData, out =>
      if quadPos = 0 then .ok out.reverse
      else if quadPos = 1 then
        .error (.binasciiError ("Invalid base64-encoded string: number of data characters (" ++ toString nData ++ ") cannot be 1 more than a multiple of 4"))
      else .error (.binasciiError "Incorrect padding")
  | c :: rest, quadPos, prev, pads, nData, out =>
      if c = '=' then
        if 2 ≤ quadPos then
          if 4 ≤ quadPos + pads + 1 then .ok out.reverse
          else b64Loop rest quadPos prev (pads + 1) nData out
        else b64Loop rest quadPos prev pads nData out
      else
        match b64Val c with
        | none => b64Loop rest quadPos prev pads nData out
        | some v =>
          match quadPos with
          | 0 => b64Loop rest 1 v 0 (nData + 1) out
          | 1 => b64Loop rest 2 v 0 (nData + 1) ((prev * 4 + v / 16) :: out)
          | 2 => b64Loop rest 3 v 0 (nData + 1) ((prev % 16 * 16 + v / 4) :: out)
          | _ => b64Loop rest 0 0 0 (nData + 1) ((prev % 4 * 64 + v) :: out)

/-- base64.b64decode on a str argument: the string must be pure ASCII
(otherwise ValueError, which the dispatcher's binascii clause does not
catch), then the non-strict binascii decode runs. -/
def b64decode (s : String) : Except PyErr (List Nat) :=
  if s.data.any (fun c => 128 ≤ c.toNat) then
    .error (.valueError "string argument should contain only ASCII characters")
  else
    b64Loop s.data 0 0 0 0 []

/-- Strict base64 validity, following the spec's words "valid base64": the
string is alphabet characters followed by at most two padding characters,
with total length a multiple of four.  Used only to compare the spec's
notion with what b64decode actually accepts. -/
def isStrictBase64 (s : String) : Bool :=
  let cs := s.data
  let dataPart := cs.takeWhile (fun c => (b64Val c).isSome)
  let rest := cs.drop dataPart.length
  decide (cs.length % 4 = 0) && rest.all (fun c => c = '=') && decide (rest.length ≤ 2)

/-- A PIL image object, identified by the bytes PIL decoded it from. -/
structure PILImage where
  raw : List Nat
deriving DecidableEq

/-- The result dictionary built by process_api and published by
process_thread: code, msg, and the optional engine output. -/
structure Result where
  code : Int
  msg : String
  result : Option String
deriving DecidableEq

/-- External collaborators of the dispatch core, as oracles.
imageOpen models PIL Image.open over a BytesIO of the decoded bytes,
followed by convert to RGB (vlchat.py line 123).
chat models vlchat_model.chat_w_image, the inference engine boundary.
redis_publish: Modelled from the spec: helper.redis_publish lives in
utils/helper.py which is not under src/; per section 4.4 it serializes a
Result and publishes it on the reply channel named by the request
identifier, and may raise when the broker is unreachable. -/
structure Env where
  imageOpen : List Nat → Except PyErr PILImage
  chat : PyVal → PILImage → Except PyErr String
  redis_publish : PyVal → Result → Except PyErr Unit

/-- vlchat.load_image_b64 (vlchat.py lines 120 to 125): base64-decode the
payload, then open it as an image. -/
def load_image_b64 (env : Env) (b64_data : String) : Except PyErr PILImage :=
  match b64decode b64_data with
  | .error e => .error e
  | .ok data => env.imageOpen data

/-- The except clauses of process_api (dispatcher.py lines 37 to 47):
binascii.Error becomes 9901, json.decoder.JSONDecodeError becomes 9902,
every other exception becomes 9998. -/
def classifyErr (e : PyErr) : Result :=
  match e with
  | .binasciiError m => ⟨9901, "base64编码异常: " ++ m, none⟩
  | .jsonDecodeError m => ⟨9902, "json编码异常: " ++ m, none⟩
  | _ => ⟨9998, "未知错误: " ++ pyStr e, none⟩

/-- The try body of process_api (dispatcher.py lines 24 to 35), with the
engine invocations it makes recorded alongside the outcome.  The control
flow mirrors the source line by line: dispatch on request api; for the one
registered api, look up params and image, base64-decode and open the
image, then look up params and text again and call the engine; any other
api value first flows through the error log concatenation of Unknown api
with the api value, which raises TypeError unless that value is a string,
and only then builds the unknown-api result. -/
def process_api_body (env : Env) (request : PyVal) :
    Except PyErr Result × List (PyVal × PILImage) :=
  match pyGetItem request "api" with
  | .error e => (.error e, [])
  | .ok apiVal =>
    if pyEqStr apiVal "/api/internvl/chat" then
      match pyGetItem request "params" with
      | .error e => (.error e, [])
      | .ok params =>
        match pyGetItem params "image" with
        | .error e => (.error e, [])
        | .ok imgVal =>
          match imgVal with
          | .str imgStr =>
            (match load_image_b64 env imgStr with
            | .error e => (.error e, [])
            | .ok img =>
              match pyGetItem request "params" with
              | .error e => (.error e, [])
              | .ok params2 =>
                match pyGetItem params2 "text" with
                | .error e => (.error e, [])
                | .ok textVal =>
                  match env.chat textVal img with
                  | .error e => (.error e, [(textVal, img)])
                  | .ok r1 => (.ok ⟨0, "success", some r1⟩, [(textVal, img)]))
          | _ => (.error (.typeError "argument should be a bytes-like object or ASCII string"), [])
    else
      match apiVal with
      | .str _ => (.ok ⟨9900, "未知 api 调用", none⟩, [])
      | .int _ => (.error (.typeError "can only concatenate str (not \x22int\x22) to str"), [])
      | .dict _ => (.error (.typeError "can only concatenate str (not \x22dict\x22) to str"), [])

/-- process_api (dispatcher.py lines 22 to 49): run the try body and
recover every exception into a coded Result via the except clauses; the
request identifier argument is unused, as in the source. -/
def process_api (env : Env) (request_id : PyVal) (request_msg : PyVal) :
    Result × List (PyVal × PILImage) :=
  match process_api_body env request_msg with
  | (.ok r, calls) => (r, calls)
  | (.error e, calls) => (classifyErr e, calls)

/-- Observable trace of one process_thread run: the successful
publications (channel value and Result), the number of publish attempts,
the engine invocations, and the exception the outer except clause caught,
if any. -/
structure ThreadTrace where
  published : List (PyVal × Result)
  pubAttempts : Nat
  engineCalls : List (PyVal × PILImage)
  caught : Option PyErr

/-- process_thread (dispatcher.py lines 53 to 72): inside one try block,
log using the request identifier and data api (raising if either key is
absent or data is not a dict), run process_api, publish the result on the
channel named by the request identifier, then log again subscripting the
data api (which can raise after the publish); any exception anywhere in
the body is caught and logged. -/
def process_thread (env : Env) (msg_body : PyVal) : ThreadTrace :=
  match pyGetItem msg_body "request_id" with
  | .error e => ⟨[], 0, [], some e⟩
  | .ok rid =>
    match pyGetItem msg_body "data" with
    | .error e => ⟨[], 0, [], some e⟩
    | .ok data =>
      match pyDictGet data "api" (.str "Unknown") with
      | .error e => ⟨[], 0, [], some e⟩
      | .ok _ =>
        match process_api env rid data with
        | (api_result, calls) =>
          match env.redis_publish rid api_result with
          | .error e => ⟨[], 1, calls, some e⟩
          | .ok _ =>
            match pyGetItem data "api" with
            | .error e => ⟨[(rid, api_result)], 1, calls, some e⟩
            | .ok _ => ⟨[(rid, api_result)], 1, calls, none⟩

/-- One event yielded by the redis subscription iterator: its type tag and
its decoded payload text. -/
structure Event where
  type : String
  data : String

/-- The for loop over ps.listen() (dispatcher.py lines 98 to 108): events
whose type is not message are skipped; for a message event the payload is
parsed by json.loads (an oracle here) and the parsed body is submitted to
the executor.  Returns the submissions made in order, and the exception
that aborted the iteration, if one was raised. -/
def listener_iterate (parse : String → Except PyErr PyVal) :
    List Event → List PyVal × Option PyErr
  | [] => ([], none)
  | item :: rest =>
    if item.type = "message" then
      match parse item.data with
      | .error e => ([], some e)
      | .ok msg_body =>
        match listener_iterate parse rest with
        | (subs, aborted) => (msg_body :: subs, aborted)
    else listener_iterate parse rest

/-- Observable recovery actions of the listener loop. -/
inductive ListenerAct where
  | logged (s : String)
  | slept (seconds : Nat)
deriving DecidableEq

/-- One iteration of the while loop in the main block (dispatcher.py lines
91 to 112): subscribe (the outcome is an oracle argument: either the event
sequence the subscription yields before ending, or the exception it
raises), iterate the events; any exception from the body is caught, logged
and followed by a sleep of 20 seconds, and the loop always continues.
redis_subscribe: Modelled from the spec: helper.redis_subscribe is in
utils/helper.py, not under src/; per section 4.1 it subscribes to the
named channel and yields a blocking sequence of broker events, raising on
connection failure.  Returns the submissions made, the recovery actions,
and whether the loop continues. -/
def listener_round (parse : String → Except PyErr PyVal)
    (subscribe : Except PyErr (List Event)) :
    List PyVal × List ListenerAct × Bool :=
  match subscribe with
  | .error e => ([], [.logged ("Exception: " ++ pyStr e), .slept 20], true)
  | .ok events =>
    match listener_iterate parse events with
    | (subs, some e) => (subs, [.logged ("Exception: " ++ pyStr e), .slept 20], true)
    | (subs, none) => (subs, [], true)

/-- Everything eventually published for the payloads of one listener
round: each submitted body is run by process_thread on a pool worker. -/
def round_publications (env : Env) (parse : String → Except PyErr PyVal)
    (subscribe : Except PyErr (List Event)) : List (PyVal × Result) :=
  ((listener_round parse subscribe).1).flatMap (fun m => (process_thread env m).published)

/-- The params dictionary of a chat request. -/
def chatParams (text image : String) : PyVal :=
  .dict [("text", .str text), ("image", .str image)]

/-- The data dictionary of a chat request: the registered api plus params. -/
def chatData (text image : String) : PyVal :=
  .dict [("api", .str "/api/internvl/chat"), ("params", chatParams text image)]

/-- A work-channel envelope: request identifier plus data, the shape of
section 6 of the spec. -/
def mkEnvelope (rid : String) (data : PyVal) : PyVal :=
  .dict [("request_id", .str rid), ("data", data)]

/-- Stub environment for concrete runs: PIL accepts any bytes, the engine
answers with a fixed text, publishing always succeeds. -/
def stubEnv : Env where
  imageOpen := fun bs => .ok ⟨bs⟩
  chat := fun _ _ => .ok "a cat"
  redis_publish := fun _ _ => .ok ()

/-- Environment whose image opener behaves as PIL does on bytes that are
not a recognized image format: Image.open raises; engine and broker
behave normally. -/
def pilRejectEnv : Env where
  imageOpen := fun _ => .error (.other "cannot identify image file")
  chat := fun _ _ => .ok "a cat"
  redis_publish := fun _ _ => .ok ()

/-- Environment in which the broker is unreachable at publish time: every
publish raises a connection error. -/
def pubFailEnv : Env where
  imageOpen := fun bs => .ok ⟨bs⟩
  chat := fun _ _ => .ok "a cat"
  redis_publish := fun _ _ => .error (.other "Connection refused")

/-- Concrete json.loads oracle: fails on the malformed payload xx exactly
as Python json.loads does, succeeds with an empty object on other
strings. -/
def parseFailStub : String → Except PyErr PyVal :=
  fun s =>
    if s = "xx" then .error (.jsonDecodeError "Expecting value: line 1 column 1 (char 0)")
    else .ok (.dict [])

/-- C1: for a valid envelope naming the registered api, when base64
decoding, image opening and the engine call all succeed with output r and
the broker accepts the publish, process_thread publishes exactly one
Result, equal to code 0, msg success, result r, on the channel named by
the envelope's request identifier. -/
theorem chat_success_publishes_exactly_once (env : Env) (rid text image : String)
    (bytes : List Nat) (img : PILImage) (r : String)
    (hb : b64decode image = .ok bytes)
    (hopen : env.imageOpen bytes = .ok img)
    (hchat : env.chat (.str text) img = .ok r)
    (hpub : env.redis_publish (.str rid) ⟨0, "success", some r⟩ = .ok ()) :
    (process_thread env (mkEnvelope rid (chatData text image))).published
      = [(.str rid, ⟨0, "success", some r⟩)] := by
  simp [process_thread, mkEnvelope, chatData, chatParams, pyGetItem, pyDictGet, pyLookup,
    process_api, process_api_body, pyEqStr, load_image_b64, hb, hopen, hchat, hpub]

/-- Witness for C1: the spec's scenario, a stub engine answering a cat on
channel r1. -/
theorem chat_success_publishes_exactly_once_w :
    b64decode "YWJj" = .ok [97, 98, 99] ∧
    (process_thread stubEnv (mkEnvelope "r1" (chatData "What is this?" "YWJj"))).published
      = [(.str "r1", ⟨0, "success", some "a cat"⟩)] :=
  ⟨rfl, chat_success_publishes_exactly_once stubEnv "r1" "What is this?" "YWJj"
    [97, 98, 99] ⟨[97, 98, 99]⟩ "a cat" rfl rfl rfl rfl⟩

/-- C4 amended: for every envelope of the chat shape whose image field
makes base64 decoding raise binascii.Error, the published Result has code
9901 and a msg that is the base64 error prefix followed by the exception
text, and the engine is never invoked. -/
theorem b64_decode_error_9901_engine_uncalled (env : Env) (rid text image m : String)
    (hb : b64decode image = .error (.binasciiError m))
    (hpub : env.redis_publish (.str rid) ⟨9901, "base64编码异常: " ++ m, none⟩ = .ok ()) :
    (process_thread env (mkEnvelope rid (chatData text image))).published
      = [(.str rid, ⟨9901, "base64编码异常: " ++ m, none⟩)] ∧
    (process_thread env (mkEnvelope rid (chatData text image))).engineCalls = [] := by
  constructor <;>
  simp [process_thread, mkEnvelope, chatData, chatParams, pyGetItem, pyDictGet, pyLookup,
    process_api, process_api_body, pyEqStr, load_image_b64, classifyErr, hb, hpub]

/-- Witness for C4 amended: the spec's scenario payload not-base64 with
two exclamation marks raises in b64decode and is published as 9901. -/
theorem b64_decode_error_9901_engine_uncalled_w :
    b64decode "not-base64!!" = .error (.binasciiError
      "Invalid base64-encoded string: number of data characters (9) cannot be 1 more than a multiple of 4") ∧
    (process_thread stubEnv (mkEnvelope "r1" (chatData "q" "not-base64!!"))).published
      = [(.str "r1", ⟨9901, "base64编码异常: " ++
          "Invalid base64-encoded string: number of data characters (9) cannot be 1 more than a multiple of 4", none⟩)] :=
  ⟨rfl,
   (b64_decode_error_9901_engine_uncalled stubEnv "r1" "q" "not-base64!!"
      "Invalid base64-encoded string: number of data characters (9) cannot be 1 more than a multiple of 4"
      rfl rfl).1⟩

/-- C4 counterexample: the image field *YWJj is not valid base64, yet the
published Result has code 9998 and not 9901: b64decode discards the
asterisk and decodes the remaining characters, so the failure only occurs
later, in Image.open on bytes that are not an image, and the catch-all
clause classifies it 9998. -/
theorem lenient_b64_not_9901_cex :
    isStrictBase64 "*YWJj" = false ∧
    (process_thread pilRejectEnv (mkEnvelope "r1" (chatData "q" "*YWJj"))).published
      = [(.str "r1", ⟨9998, "未知错误: cannot identify image file", none⟩)] :=
  ⟨by decide, rfl⟩

/-- C5: an envelope whose data carries an api field (a string, as the
RequestEnvelope data model types it) different from the registered
operation gets exactly the Result code 9900 msg unknown api published on
its request identifier channel, and the engine is never invoked.  A
non-string api value instead raises TypeError in the error log
concatenation and is classified 9998 by the catch-all. -/
theorem unknown_api_9900_engine_uncalled (env : Env) (rid : String)
    (entries : List (String × PyVal)) (s : String)
    (hapi : pyLookup entries "api" = some (.str s))
    (hne : s ≠ "/api/internvl/chat")
    (hpub : env.redis_publish (.str rid) ⟨9900, "未知 api 调用", none⟩ = .ok ()) :
    (process_thread env (mkEnvelope rid (.dict entries))).published
      = [(.str rid, ⟨9900, "未知 api 调用", none⟩)] ∧
    (process_thread env (mkEnvelope rid (.dict entries))).engineCalls = [] := by
  constructor <;>
  simp [process_thread, mkEnvelope, pyGetItem, pyDictGet, pyLookup,
    process_api, process_api_body, pyEqStr, hapi, hne, hpub]

/-- Witness for C5: the spec's scenario with api unknown. -/
theorem unknown_api_9900_engine_uncalled_w :
    (process_thread stubEnv (mkEnvelope "r1" (.dict [("api", .str "/unknown")]))).published
      = [(.str "r1", ⟨9900, "未知 api 调用", none⟩)] :=
  (unknown_api_9900_engine_uncalled stubEnv "r1" [("api", .str "/unknown")]
    "/unknown" rfl (by decide) rfl).1

/-- Unfolding equation of pyGetItem on a dict value. -/
theorem pyGetItem_dict (entries : List (String × PyVal)) (key : String) :
    pyGetItem (.dict entries) key =
      match pyLookup entries key with
      | some v => .ok v
      | none => .error (.keyError key) := rfl

/-- Unfolding equation of pyDictGet on a dict value. -/
theorem pyDictGet_dict (entries : List (String × PyVal)) (key : String) (dflt : PyVal) :
    pyDictGet (.dict entries) key dflt = .ok ((pyLookup entries key).getD dflt) := rfl

/-- Helper: every successful outcome of the try body of process_api carries
code 0 or code 9900. -/
theorem process_api_body_ok_code (env : Env) (req : PyVal) (r : Result)
    (calls : List (PyVal × PILImage))
    (h : process_api_body env req = (.ok r, calls)) :
    r.code = 0 ∨ r.code = 9900 := by
  unfold process_api_body at h
  repeat' split at h
  all_goals simp_all
  all_goals obtain ⟨h1, h2⟩ := h
  all_goals subst h1
  all_goals simp

/-- C6: process_api is total: whatever the oracles do and whatever the
input value is, it returns a Result (by construction of the embedding,
mirroring the try and except structure that never re-raises) whose code is
one of 0, 9900, 9901, 9902, 9998; and the except clauses give code 9998 to
every exception that is neither a binascii error nor a json decode
error. -/
theorem process_api_total_unclassified_9998 (env : Env) (rid req : PyVal) :
    (process_api env rid req).1.code ∈ ([0, 9900, 9901, 9902, 9998] : List Int) ∧
    (∀ e : PyErr, (∀ m, e ≠ PyErr.binasciiError m) → (∀ m, e ≠ PyErr.jsonDecodeError m) →
      (classifyErr e).code = 9998) := by
  constructor
  · unfold process_api
    rcases hbody : process_api_body env req with ⟨er, calls⟩
    rcases er with e | r
    · cases e <;> simp [classifyErr]
    · rcases process_api_body_ok_code env req r calls hbody with h | h <;> simp [h]
  · intro e h1 h2
    cases e
    case binasciiError m => exact absurd rfl (h1 m)
    case jsonDecodeError m => exact absurd rfl (h2 m)
    all_goals rfl

/-- Witness for C6: a request that is not even a dict still yields a coded
Result, and a KeyError is classified 9998. -/
theorem process_api_total_unclassified_9998_w :
    (process_api stubEnv (.str "r1") (.int 0)).1.code ∈ ([0, 9900, 9901, 9902, 9998] : List Int) ∧
    (classifyErr (.keyError "api")).code = 9998 :=
  ⟨(process_api_total_unclassified_9998 stubEnv (.str "r1") (.int 0)).1,
   (process_api_total_unclassified_9998 stubEnv (.str "r1") (.int 0)).2 (.keyError "api")
     (fun _ h => PyErr.noConfusion h) (fun _ h => PyErr.noConfusion h)⟩

/-- C10: a payload that decodes to an object lacking the request_id key,
or lacking the data key, is dropped silently by the worker: the KeyError
is caught (recorded as the logged exception), no publish is attempted and
nothing is published on any channel. -/
theorem missing_keys_silent_drop (env : Env) (entries : List (String × PyVal))
    (h : pyLookup entries "request_id" = none ∨ pyLookup entries "data" = none) :
    (process_thread env (.dict entries)).published = [] ∧
    (process_thread env (.dict entries)).pubAttempts = 0 ∧
    (process_thread env (.dict entries)).caught.isSome = true := by
  rcases h with h | h
  · simp [process_thread, pyGetItem, h]
  · cases hr : pyLookup entries "request_id" <;>
      simp [process_thread, pyGetItem, hr, h]

/-- Witness for C10: an object with only a data key, and an object with
only a request_id key, both yield no publication. -/
theorem missing_keys_silent_drop_w :
    ((process_thread stubEnv (.dict [("data", .dict [])])).published = [] ∧
     (process_thread stubEnv (.dict [("data", .dict [])])).pubAttempts = 0 ∧
     (process_thread stubEnv (.dict [("data", .dict [])])).caught.isSome = true) ∧
    ((process_thread stubEnv (.dict [("request_id", .str "r1")])).published = [] ∧
     (process_thread stubEnv (.dict [("request_id", .str "r1")])).pubAttempts = 0 ∧
     (process_thread stubEnv (.dict [("request_id", .str "r1")])).caught.isSome = true) :=
  ⟨missing_keys_silent_drop stubEnv [("data", .dict [])] (Or.inl rfl),
   missing_keys_silent_drop stubEnv [("request_id", .str "r1")] (Or.inr rfl)⟩

/-- C8: when the publish raises, the worker swallows the failure: nothing
is published, exactly one publish attempt was made (never retried), and
the exception is caught (logged) rather than escaping; the Result for the
request is lost. -/
theorem publish_failure_swallowed (env : Env) (rid : PyVal)
    (entries : List (String × PyVal)) (e : PyErr)
    (hpub : env.redis_publish rid (process_api env rid (.dict entries)).1 = .error e) :
    (process_thread env (.dict [("request_id", rid), ("data", .dict entries)])).published = [] ∧
    (process_thread env (.dict [("request_id", rid), ("data", .dict entries)])).pubAttempts = 1 ∧
    (process_thread env (.dict [("request_id", rid), ("data", .dict entries)])).caught = some e := by
  constructor
  · simp [process_thread, pyGetItem, pyDictGet, pyLookup, hpub]
  constructor <;> simp [process_thread, pyGetItem, pyDictGet, pyLookup, hpub]

/-- Witness for C8: a broker that refuses the publish loses the 9900 reply
after one attempt. -/
theorem publish_failure_swallowed_w :
    (process_thread pubFailEnv (.dict [("request_id", .str "r1"), ("data", .dict [("api", .str "/unknown")])])).published = [] ∧
    (process_thread pubFailEnv (.dict [("request_id", .str "r1"), ("data", .dict [("api", .str "/unknown")])])).pubAttempts = 1 ∧
    (process_thread pubFailEnv (.dict [("request_id", .str "r1"), ("data", .dict [("api", .str "/unknown")])])).caught
      = some (.other "Connection refused") :=
  publish_failure_swallowed pubFailEnv (.str "r1") [("api", .str "/unknown")]
    (.other "Connection refused") rfl

/-- C3: one worker run never publishes more than one Result, and for a
well-formed envelope (request identifier present, data an object) whose
publish the broker accepts, it publishes exactly one Result, the
process_api outcome, on the request identifier channel. -/
theorem at_most_one_publication (env : Env) (msg : PyVal) :
    (process_thread env msg).published.length ≤ 1 ∧
    (∀ rid entries,
      pyGetItem msg "request_id" = .ok rid →
      pyGetItem msg "data" = .ok (.dict entries) →
      env.redis_publish rid (process_api env rid (.dict entries)).1 = .ok () →
      (process_thread env msg).published = [(rid, (process_api env rid (.dict entries)).1)]) := by
  constructor
  · unfold process_thread
    repeat' split
    all_goals simp
  · intro rid entries h1 h2 hpub
    rcases hpa : process_api env rid (.dict entries) with ⟨ar, cs⟩
    rw [hpa] at hpub
    have hpub2 : env.redis_publish rid ar = Except.ok () := hpub
    cases hapi : pyLookup entries "api" <;>
      simp [process_thread, h1, h2, hpa, hpub2, pyGetItem_dict, pyDictGet_dict, hapi]

/-- Witness for C3: the unknown-api envelope is published exactly once. -/
theorem at_most_one_publication_w :
    (process_thread stubEnv (mkEnvelope "r1" (.dict [("api", .str "/unknown")]))).published
      = [(.str "r1", (process_api stubEnv (.str "r1") (.dict [("api", .str "/unknown")])).1)] :=
  (at_most_one_publication stubEnv (mkEnvelope "r1" (.dict [("api", .str "/unknown")]))).2
    (.str "r1") [("api", .str "/unknown")] rfl rfl rfl

/-- C2 counterexample: the payload xx, which is not a serialized JSON
object, produces no publication at all — in particular no Result with
code 9902 is published as its reply: json.loads raises inside the
listener loop before any submission is made, and the listener's handler
only logs the error and sleeps 20. -/
theorem malformed_payload_no_9902_cex :
    round_publications stubEnv parseFailStub (.ok [⟨"message", "xx"⟩]) = [] ∧
    (listener_round parseFailStub (.ok [⟨"message", "xx"⟩])).2
      = ([.logged "Exception: Expecting value: line 1 column 1 (char 0)", .slept 20], true) :=
  ⟨rfl, rfl⟩

/-- C2 amended: a message event whose payload fails structural decoding
yields no submission to the pool and aborts the iteration (also dropping
the events after it in the same round); the listener round catches the
decode error, logs it and sleeps 20, and no Result whatsoever is
published for that payload. -/
theorem malformed_payload_dropped (env : Env) (parse : String → Except PyErr PyVal)
    (p : String) (e : PyErr) (evs : List Event)
    (hp : parse p = .error e) :
    listener_iterate parse (⟨"message", p⟩ :: evs) = ([], some e) ∧
    round_publications env parse (.ok (⟨"message", p⟩ :: evs)) = [] ∧
    (listener_round parse (.ok (⟨"message", p⟩ :: evs))).2
      = ([.logged ("Exception: " ++ pyStr e), .slept 20], true) := by
  have h1 : listener_iterate parse (⟨"message", p⟩ :: evs) = ([], some e) := by
    simp [listener_iterate, hp]
  refine ⟨h1, ?_, ?_⟩ <;> simp [round_publications, listener_round, h1]

/-- Witness for C2 amended: the concrete malformed payload xx. -/
theorem malformed_payload_dropped_w :
    listener_iterate parseFailStub [⟨"message", "xx"⟩] = ([], some (.jsonDecodeError "Expecting value: line 1 column 1 (char 0)")) ∧
    round_publications stubEnv parseFailStub (.ok [⟨"message", "xx"⟩]) = [] ∧
    (listener_round parseFailStub (.ok [⟨"message", "xx"⟩])).2
      = ([.logged ("Exception: " ++ pyStr (.jsonDecodeError "Expecting value: line 1 column 1 (char 0)")), .slept 20], true) :=
  malformed_payload_dropped stubEnv parseFailStub "xx"
    (.jsonDecodeError "Expecting value: line 1 column 1 (char 0)") [] rfl

/-- C7: every listener round continues the loop — the listener never
terminates the process on its own — and whenever the round's body raises
an error e of any kind (the subscribe call fails, or the iteration over
events fails, e.g. on a malformed payload), the recovery is uniformly the
same: log the error, sleep 20, re-enter the loop. -/
theorem listener_uniform_recovery (parse : String → Except PyErr PyVal)
    (sub : Except PyErr (List Event)) :
    (listener_round parse sub).2.2 = true ∧
    (∀ e : PyErr,
      (sub = .error e ∨ ∃ evs, sub = .ok evs ∧ (listener_iterate parse evs).2 = some e) →
      (listener_round parse sub).2.1 = [.logged ("Exception: " ++ pyStr e), .slept 20]) := by
  constructor
  · rcases sub with e | evs
    · rfl
    · rcases h : listener_iterate parse evs with ⟨subs, ab⟩
      cases ab <;> simp [listener_round, h]
  · rintro e (rfl | ⟨evs, rfl, hit⟩)
    · rfl
    · rcases h : listener_iterate parse evs with ⟨subs, ab⟩
      rw [h] at hit
      simp only at hit
      subst hit
      simp [listener_round, h]

/-- Witness for C7: a failed subscribe (broker down) logs and sleeps 20
and the loop continues. -/
theorem listener_uniform_recovery_w :
    (listener_round parseFailStub (.error (.other "Connection reset"))).2.2 = true ∧
    (listener_round parseFailStub (.error (.other "Connection reset"))).2.1
      = [.logged ("Exception: " ++ pyStr (.other "Connection reset")), .slept 20] :=
  ⟨(listener_uniform_recovery parseFailStub (.error (.other "Connection reset"))).1,
   (listener_uniform_recovery parseFailStub (.error (.other "Connection reset"))).2
     (.other "Connection reset") (Or.inl rfl)⟩

/-- State of the dispatch pool: the FIFO intake queue of pending jobs, the
jobs currently held by workers, and the finished jobs in completion
order.  Jobs are identified by numbers. -/
structure PoolState where
  pending : List Nat
  running : List Nat
  finished : List Nat

/-- Modelled from the spec: the queue discipline of
concurrent.futures.ThreadPoolExecutor with max_workers K, as used at
dispatcher.py lines 96 to 106 and described in section 4.2 of the spec
(the executor's own code is not part of this repository): submit appends
to the tail of an unbounded FIFO intake queue; a worker may start the
oldest pending job whenever fewer than K jobs are running; any running
job may finish, at an arbitrary time relative to the other workers. -/
inductive PoolStep (K : Nat) : PoolState → PoolState → Prop where
  | start (j : Nat) (rest running finished : List Nat)
      (h : running.length < K) :
      PoolStep K ⟨j :: rest, running, finished⟩ ⟨rest, running ++ [j], finished⟩
  | finish (pending r1 r2 finished : List Nat) (j : Nat) :
      PoolStep K ⟨pending, r1 ++ j :: r2, finished⟩ ⟨pending, r1 ++ r2, finished ++ [j]⟩

/-- Reflexive-transitive closure of pool steps: the executions of the
pool. -/
inductive PoolReach (K : Nat) : PoolState → PoolState → Prop where
  | refl (s : PoolState) : PoolReach K s s
  | tail (s t u : PoolState) : PoolReach K s t → PoolStep K t u → PoolReach K s u

/-- Helper: each pool step permutes the combined finished, running and
pending contents. -/
theorem poolStep_perm (K : Nat) (s t : PoolState) (h : PoolStep K s t) :
    (t.finished ++ t.running ++ t.pending).Perm (s.finished ++ s.running ++ s.pending) := by
  cases h with
  | start j rest running finished h =>
      simp [List.append_assoc]
  | finish pending r1 r2 finished j =>
      simp only [List.append_assoc, List.cons_append, List.nil_append]
      exact List.Perm.append_left _ List.perm_middle.symm

/-- Helper: reachability preserves the combined job contents up to
permutation. -/
theorem poolReach_perm (K : Nat) (s t : PoolState) (h : PoolReach K s t) :
    (t.finished ++ t.running ++ t.pending).Perm (s.finished ++ s.running ++ s.pending) := by
  induction h with
  | refl => exact List.Perm.refl _
  | tail a b hr hstep ih => exact (poolStep_perm K a b hstep).trans ih

/-- Helper: with a single worker, at most one job runs at a time and the
concatenation finished, running, pending is preserved as an ordered
list. -/
theorem poolReach_fifo_aux (s t : PoolState) (h : PoolReach 1 s t)
    (hlen : s.running.length ≤ 1) :
    t.running.length ≤ 1 ∧
    t.finished ++ t.running ++ t.pending = s.finished ++ s.running ++ s.pending := by
  induction h with
  | refl => exact ⟨hlen, rfl⟩
  | tail a b hr hstep ih =>
    obtain ⟨hl, heq⟩ := ih
    cases hstep with
    | start j rest running finished hK =>
        have hrun : running = [] := List.length_eq_zero.mp (Nat.lt_one_iff.mp hK)
        subst hrun
        refine ⟨by simp, ?_⟩
        simpa [List.append_assoc] using heq
    | finish pending r1 r2 finished j =>
        have h1 : r1 = [] := by
          have := hl
          simp only [List.length_append, List.length_cons] at this
          exact List.length_eq_zero.mp (by omega)
        have h2 : r2 = [] := by
          have := hl
          simp only [List.length_append, List.length_cons] at this
          exact List.length_eq_zero.mp (by omega)
        subst h1; subst h2
        refine ⟨by simp, ?_⟩
        simpa [List.append_assoc] using heq

/-- C9: with pool size one, any complete execution of the pool finishes
the jobs in exactly the order they were submitted (strict FIFO); with any
pool size K greater than one, any complete execution finishes a
permutation of the submitted jobs — every submitted job is executed
exactly once, in no particular order. -/
theorem pool_fifo_and_exactly_once :
    (∀ jobs fin : List Nat,
      PoolReach 1 ⟨jobs, [], []⟩ ⟨[], [], fin⟩ → fin = jobs) ∧
    (∀ (K : Nat) (jobs fin : List Nat), 1 < K →
      PoolReach K ⟨jobs, [], []⟩ ⟨[], [], fin⟩ → fin.Perm jobs) := by
  constructor
  · intro jobs fin h
    have := (poolReach_fifo_aux ⟨jobs, [], []⟩ ⟨[], [], fin⟩ h (by simp)).2
    simpa using this
  · intro K jobs fin _ h
    have := poolReach_perm K ⟨jobs, [], []⟩ ⟨[], [], fin⟩ h
    simpa using this

/-- Witness for C9: a single worker finishes jobs one and two in order;
two workers can finish them out of order, still each exactly once. -/
theorem pool_fifo_and_exactly_once_w :
    ([1, 2] : List Nat) = [1, 2] ∧ ([2, 1] : List Nat).Perm [1, 2] := by
  have d1 : PoolReach 1 ⟨[1, 2], [], []⟩ ⟨[], [], [1, 2]⟩ :=
    PoolReach.tail _ _ _
      (PoolReach.tail _ _ _
        (PoolReach.tail _ _ _
          (PoolReach.tail _ _ _ (PoolReach.refl _)
            (PoolStep.start 1 [2] [] [] (by decide)))
          (PoolStep.finish [2] [] [] [] 1))
        (PoolStep.start 2 [] [] [1] (by decide)))
      (PoolStep.finish [] [] [] [1] 2)
  have d2 : PoolReach 2 ⟨[1, 2], [], []⟩ ⟨[], [], [2, 1]⟩ :=
    PoolReach.tail _ _ _
      (PoolReach.tail _ _ _
        (PoolReach.tail _ _ _
          (PoolReach.tail _ _ _ (PoolReach.refl _)
            (PoolStep.start 1 [2] [] [] (by decide)))
          (PoolStep.start 2 [] [1] [] (by decide)))
        (PoolStep.finish [] [1] [] [] 2))
      (PoolStep.finish [] [] [] [2] 1)
  exact ⟨pool_fifo_and_exactly_once.1 [1, 2] [1, 2] d1,
         pool_fifo_and_exactly_once.2 2 [1, 2] [2, 1] (by decide) d2⟩

end InternVL
